import Mathlib

/-!
Verification of the `cfme/cloud/provider` page-object module.

The repository declares a graph of UI navigation steps for the CloudProvider
object and a few workflow helpers (`get_all_providers`, `discover`,
`wait_for_a_provider`).  The navigation resolver itself (`navigate_to`,
`CFMENavigateStep` from `utils.appliance.implementations.ui` / navmazing) and
the view classes are external collaborators not contained in the repository;
they are modelled here from the specification (section 4.1 of the spec).
The step registrations, their prerequisites, the `All.resetter`, the
`Instances`/`Images` `am_i_here` overrides and the helper functions are
translated directly from `src/cfme/cloud/provider/__init__.py`.
-/

namespace CloudProviderModule

/-- A step is identified by the pair (objectType, stepName). -/
abbrev StepId := String × String

/-- Modelled from the spec: a NavigationStep has a `prerequisite` reference
(or none for a root step), an optional `view` identifier (the UI state
expected after the step), an optional `arrival_check` predicate
(`am_i_here`), a side-effecting `action` (which may fail, returning `none`),
and an optional `reset` procedure run when the fast path reuses the step. -/
structure NavStep (σ : Type) where
  prerequisite : Option StepId := none
  view : Option String := none
  arrivalCheck : Option (σ → Bool) := none
  action : σ → Option σ
  reset : Option (σ → σ) := none

/-- Modelled from the spec: the NavigationGraph is a registration list keyed
by (objectType, stepName); the most-recently-registered definition wins. -/
abbrev Registry (σ : Type) := List (StepId × NavStep σ)

/-- Look up a step; the most recent registration for an id wins. -/
def lookupStep {σ : Type} (reg : Registry σ) (id : StepId) : Option (NavStep σ) :=
  (reg.reverse.find? (fun e => e.1 == id)).map (fun e => e.2)

/-- Modelled from the spec: result of a navigation request.  `ok` carries the
view handle, the resulting browser state and the trace of executed step
actions; `unknownStep` is `UnknownStepError`; `navFailure` is
`NavigationFailure` carrying the failing step identity and the actions that
ran before it; `verifyError` is `NavigationVerificationError` naming the
target step, its expected view and the observed state. -/
inductive NavResult (σ : Type) where
  | ok (view : Option String) (state : σ) (trace : List StepId)
  | unknownStep
  | navFailure (failing : StepId) (trace : List StepId)
  | verifyError (target : StepId) (expectedView : Option String) (observed : σ)
      (trace : List StepId)

/-- The list of step actions a navigation request executed. -/
def traceOf {σ : Type} : NavResult σ → List StepId
  | .ok _ _ t => t
  | .unknownStep => []
  | .navFailure _ t => t
  | .verifyError _ _ _ t => t

/-- Modelled from the spec: walk `prerequisite` references back to root,
building the ordered (root-most first) list of steps not yet satisfied; a
prerequisite is satisfied when its own arrival check already holds for the
current context.  `fuel` bounds the walk (the graph is acyclic by
construction); `none` signals a dangling prerequisite reference or fuel
exhaustion. -/
def resolvePath {σ : Type} (reg : Registry σ) (s : σ) :
    Nat → StepId → Option (List (StepId × NavStep σ))
  | 0, _ => none
  | fuel + 1, id =>
    match lookupStep reg id with
    | none => none
    | some st =>
      match st.arrivalCheck with
      | some c =>
        if c s then some []
        else
          match st.prerequisite with
          | none => some [(id, st)]
          | some p => (resolvePath reg s fuel p).map (fun l => l ++ [(id, st)])
      | none =>
        match st.prerequisite with
        | none => some [(id, st)]
        | some p => (resolvePath reg s fuel p).map (fun l => l ++ [(id, st)])

/-- Modelled from the spec: execute unsatisfied steps oldest-prerequisite
first, threading the browser state; a failing action aborts with the failing
step identity and the trace of actions that ran before it. -/
def execSteps {σ : Type} :
    List (StepId × NavStep σ) → σ → Except (StepId × List StepId) (σ × List StepId)
  | [], s => .ok (s, [])
  | (id, st) :: rest, s =>
    match st.action s with
    | none => .error (id, [])
    | some s1 =>
      match execSteps rest s1 with
      | .error (f, t) => .error (f, id :: t)
      | .ok (s2, t) => .ok (s2, id :: t)

/-- Apply the step's reset procedure when it has one. -/
def applyReset {σ : Type} (st : NavStep σ) (s : σ) : σ :=
  match st.reset with
  | some r => r s
  | none => s

/-- Does the fast path apply: an arrival check exists and currently holds. -/
def fastPath {σ : Type} (st : NavStep σ) (s : σ) : Bool :=
  match st.arrivalCheck with
  | some c => c s
  | none => false

/-- Modelled from the spec (section 4.1): `navigate_to(objectType, stepName,
context)`.  Looks the step up (absent registration fails with
`UnknownStepError`); if the arrival check already holds, optionally runs
`reset` and returns the current view handle with zero actions; otherwise
resolves the unsatisfied prerequisite chain, executes it root-to-target, and
finally re-evaluates the arrival check, failing with
`NavigationVerificationError` when it is still false. -/
def navigate_to {σ : Type} (reg : Registry σ) (obj step : String) (s : σ) :
    NavResult σ :=
  match lookupStep reg (obj, step) with
  | none => .unknownStep
  | some st =>
    if fastPath st s then
      .ok st.view (applyReset st s) []
    else
      match resolvePath reg s (reg.length + 1) (obj, step) with
      | none => .unknownStep
      | some path =>
        match execSteps path s with
        | .error (f, t) => .navFailure f t
        | .ok (s1, t) =>
          match st.arrivalCheck with
          | some c =>
            if c s1 then .ok st.view s1 t
            else .verifyError (obj, step) st.view s1 t
          | none => .ok st.view s1 t

/-! ### Concrete browser-state model for the CloudProvider module -/

/-- State of the All listing widgets, used by `All.resetter`
(src/cfme/cloud/provider/__init__.py lines 102-109). -/
structure AllListing where
  viewSelectorSelected : String
  paginatorExists : Bool
  checkboxes : List Bool
deriving DecidableEq

/-- Modelled from the spec: the browser session state visible to arrival
checks and actions.  `controller`, `title` and `summary` form the current
location read by `match_location`; `displayed` is an abstract marker for
which external view class currently reports `is_displayed`; `loggedIn` is the
predicate of the external `LoggedIn` root step; `listing` holds the widgets
touched by `All.resetter`. -/
structure BrowserState where
  controller : String
  title : String
  summary : String
  displayed : String
  loggedIn : Bool
  listing : AllListing
deriving DecidableEq

/-- Modelled from the spec: `match_location` of the external widget library
compares the given fields against the current location. -/
def match_location (controller title summary : String) (s : BrowserState) : Bool :=
  s.controller == controller && s.title == title && s.summary == summary

/-- `match_page = partial(match_location, controller=ems_cloud,
title=Cloud Providers)` (src line 39). -/
def match_page (summary : String) (s : BrowserState) : Bool :=
  match_location "ems_cloud" "Cloud Providers" summary s

/-- Modelled from the spec: the default `am_i_here` of a step with a VIEW is
that view reporting `is_displayed`; the view classes are external, so a view
is modelled as an abstract displayed marker. -/
def viewDisplayed (v : String) (s : BrowserState) : Bool :=
  s.displayed == v

/-- Modelled from the spec: `CloudProviderDetailsView.is_displayed` (external
view class) matches the location with controller ems_cloud and summary equal
to the provider name. -/
def detailsViewDisplayed (name : String) (s : BrowserState) : Bool :=
  s.controller == "ems_cloud" && s.summary == name

/-- `am_i_here` of the `Instances` step (src lines 210-211):
`match_page(summary=(name) (All Instances))`. -/
def instancesAmIHere (name : String) (s : BrowserState) : Bool :=
  match_page (name ++ " (All Instances)") s

/-- `am_i_here` of the `Images` step (src lines 221-222):
`match_page(summary=(name) (All Images))`. -/
def imagesAmIHere (name : String) (s : BrowserState) : Bool :=
  match_page (name ++ " (All Images)") s

/-- `paginator.check_all()`: every item checkbox becomes checked. -/
def check_all (l : AllListing) : AllListing :=
  { l with checkboxes := l.checkboxes.map (fun _ => true) }

/-- `paginator.uncheck_all()`: every item checkbox becomes unchecked. -/
def uncheck_all (l : AllListing) : AllListing :=
  { l with checkboxes := l.checkboxes.map (fun _ => false) }

/-- Contiguous substring containment on character lists. -/
def containsSub (pat : List Char) : List Char → Bool
  | [] => pat.isEmpty
  | c :: cs => pat.isPrefixOf (c :: cs) || containsSub pat cs

/-- The Python membership test `Grid View in tb.view_selector.selected`
(substring containment on the selected title, src line 105). -/
def gridViewSelected (sel : String) : Bool :=
  containsSub ("Grid View".toList) sel.toList

/-- `All.resetter` (src lines 102-109), instrumented with the list of widget
operations it performs: select Grid View only when it is not already
selected, then, when the paginator exists, `check_all` followed by
`uncheck_all`. -/
def allResetterOps (l : AllListing) : AllListing × List String :=
  let p1 :=
    if gridViewSelected l.viewSelectorSelected then (l, ([] : List String))
    else ({ l with viewSelectorSelected := "Grid View" }, ["select Grid View"])
  if p1.1.paginatorExists then
    (uncheck_all (check_all p1.1), p1.2 ++ ["check_all", "uncheck_all"])
  else p1

/-- `All.resetter` as a state transformer on the browser state. -/
def allResetter (s : BrowserState) : BrowserState :=
  { s with listing := (allResetterOps s.listing).1 }

/-- An action environment: what the external browser does when each step's
`step()` side effect runs, keyed by step name (`none` models the underlying
control reporting failure). -/
abbrev ActionEnv := String → BrowserState → Option BrowserState

/-- The navigation registry declared by src/cfme/cloud/provider/__init__.py
(lines 94-225) for a CloudProvider object with name `name`, together with the
externally registered `LoggedIn` root step it references
(`NavigateToAttribute(appliance.server, LoggedIn)`), which is modelled from
the spec.  Step actions are the opaque browser side effects supplied by
`env`. -/
def cloudProviderRegistry (name : String) (env : ActionEnv) : Registry BrowserState :=
  [ (("appliance.server", "LoggedIn"),
      { view := none, arrivalCheck := some (fun s => s.loggedIn),
        action := env "LoggedIn" }),
    (("CloudProvider", "All"),
      { prerequisite := some ("appliance.server", "LoggedIn"),
        view := some "CloudProvidersView",
        arrivalCheck := some (viewDisplayed "CloudProvidersView"),
        action := env "All", reset := some allResetter }),
    (("CloudProvider", "Add"),
      { prerequisite := some ("CloudProvider", "All"),
        view := some "CloudProviderAddView",
        arrivalCheck := some (viewDisplayed "CloudProviderAddView"),
        action := env "Add" }),
    (("CloudProvider", "Discover"),
      { prerequisite := some ("CloudProvider", "All"),
        view := some "CloudProvidersDiscoverView",
        arrivalCheck := some (viewDisplayed "CloudProvidersDiscoverView"),
        action := env "Discover" }),
    (("CloudProvider", "Details"),
      { prerequisite := some ("CloudProvider", "All"),
        view := some "CloudProviderDetailsView",
        arrivalCheck := some (detailsViewDisplayed name),
        action := env "Details" }),
    (("CloudProvider", "Edit"),
      { prerequisite := some ("CloudProvider", "All"),
        view := some "CloudProviderEditView",
        arrivalCheck := some (viewDisplayed "CloudProviderEditView"),
        action := env "Edit" }),
    (("CloudProvider", "EditFromDetails"),
      { prerequisite := some ("CloudProvider", "Details"),
        view := some "CloudProviderEditView",
        arrivalCheck := some (viewDisplayed "CloudProviderEditView"),
        action := env "EditFromDetails" }),
    (("CloudProvider", "ManagePolicies"),
      { prerequisite := some ("CloudProvider", "All"),
        view := some "ProvidersManagePoliciesView",
        arrivalCheck := some (viewDisplayed "ProvidersManagePoliciesView"),
        action := env "ManagePolicies" }),
    (("CloudProvider", "ManagePoliciesFromDetails"),
      { prerequisite := some ("CloudProvider", "Details"),
        view := some "ProvidersManagePoliciesView",
        arrivalCheck := some (viewDisplayed "ProvidersManagePoliciesView"),
        action := env "ManagePoliciesFromDetails" }),
    (("CloudProvider", "EditTags"),
      { prerequisite := some ("CloudProvider", "All"),
        view := some "ProvidersEditTagsView",
        arrivalCheck := some (viewDisplayed "ProvidersEditTagsView"),
        action := env "EditTags" }),
    (("CloudProvider", "EditTagsFromDetails"),
      { prerequisite := some ("CloudProvider", "Details"),
        view := some "ProvidersEditTagsView",
        arrivalCheck := some (viewDisplayed "ProvidersEditTagsView"),
        action := env "EditTagsFromDetails" }),
    (("CloudProvider", "Timelines"),
      { prerequisite := some ("CloudProvider", "Details"),
        view := some "CloudProviderTimelinesView",
        arrivalCheck := some (viewDisplayed "CloudProviderTimelinesView"),
        action := env "Timelines" }),
    (("CloudProvider", "Instances"),
      { prerequisite := some ("CloudProvider", "Details"),
        view := none,
        arrivalCheck := some (instancesAmIHere name),
        action := env "Instances" }),
    (("CloudProvider", "Images"),
      { prerequisite := some ("CloudProvider", "Details"),
        view := none,
        arrivalCheck := some (imagesAmIHere name),
        action := env "Images" }) ]

/-- The step names registered for an object type, in registration order. -/
def registeredSteps {σ : Type} (reg : Registry σ) (obj : String) : List String :=
  (reg.filter (fun e => e.1.1 == obj)).map (fun e => e.1.2)

/-! ### Workflow helper functions (src lines 228-267) -/

/-- A UI operation performed by a workflow helper: a navigation request, a
form-field fill, a button click, or a blocking wait for some completion. -/
inductive UIOp where
  | navigate (obj step : String)
  | fillField (field value : String)
  | click (button : String)
  | waitForCompletion (what : String)
deriving DecidableEq

/-- A credential collaborator object exposing `principal`, `secret` and
`verify_secret` (consumed by `discover`). -/
structure Credential where
  principal : String
  secret : String
  verify_secret : String

/-- `discover(credential, cancel, d_type)` (src lines 241-259) as the ordered
list of UI operations it performs: navigate to the Discover screen, fill the
four form fields, then click cancel or start. -/
def discover (credential : Credential) (cancel : Bool) (d_type : String) :
    List UIOp :=
  [UIOp.navigate "CloudProvider" "Discover",
   UIOp.fillField "discover_type" d_type,
   UIOp.fillField "username" credential.principal,
   UIOp.fillField "password" credential.secret,
   UIOp.fillField "password_verify" credential.verify_secret] ++
  (if cancel then [UIOp.click "cancel"] else [UIOp.click "start"])

/-- Is the operation a button click. -/
def isClick : UIOp → Bool
  | .click _ => true
  | _ => false

/-- Is the operation a blocking wait. -/
def isWait : UIOp → Bool
  | .waitForCompletion _ => true
  | _ => false

/-- `get_all_providers(do_not_navigate)` (src lines 228-238).  The paginated
listing is abstracted as the list of pages returned by `paginator.pages()`,
each page being the list of titles of the elements matched by the
ems_cloud/show quadicon xpath; the function folds them into a set with
`providers.add`.  Returns the navigation operations performed and the
resulting set. -/
def get_all_providers (do_not_navigate : Bool) (pages : List (List String)) :
    List UIOp × Finset String :=
  ((if do_not_navigate then [] else [UIOp.navigate "CloudProvider" "All"]),
   pages.foldl (fun acc page => page.foldl (fun a t => insert t a) acc) ∅)

/-- Result of the polling helper: the value that broke the fail condition
together with the number of refreshes performed, or a timeout. -/
inductive WaitResult where
  | success (value : Nat) (refreshes : Nat)
  | timedOut (refreshes : Nat)
deriving DecidableEq

/-- Modelled from the spec: the blocking spin-wait of `utils.wait.wait_for`
with `fail_condition=0` and `fail_func=refresh`, discretized to one poll per
second.  `counts i` is the paginator item count observed at poll `i`; every
poll whose count equals the fail condition runs the refresh side effect and
continues; fuel exhaustion raises the timeout failure. -/
def waitForAux (counts : Nat → Nat) : Nat → Nat → WaitResult
  | i, 0 => .timedOut i
  | i, fuel + 1 =>
    if counts i ≠ 0 then .success (counts i) i
    else waitForAux counts (i + 1) fuel

/-- `wait_for_a_provider()` (src lines 262-267): navigate to the All listing,
then poll `int(view.paginator.items_amount)` with `fail_condition=0`,
`num_sec=1000` and a browser refresh as the fail function. -/
def wait_for_a_provider (counts : Nat → Nat) : List UIOp × WaitResult :=
  ([UIOp.navigate "CloudProvider" "All"], waitForAux counts 0 1000)

/-! ### Concrete fixtures used to exercise the model -/

/-- A listing in a non-canonical state: list view, paginator present, one
checked checkbox. -/
def wListing : AllListing := ⟨"List View", true, [true, false]⟩

/-- A logged-in browser state on no particular screen. -/
def wState : BrowserState := ⟨"c0", "t0", "s0", "start", true, wListing⟩

/-- A browser state currently on the All listing. -/
def wAllState : BrowserState := { wState with displayed := "CloudProvidersView" }

/-- An action environment whose browser actions succeed without changing the
page. -/
def wEnv : ActionEnv := fun _ s => some s

/-- The registry entry for the All step under `wEnv`. -/
def wAllStep : NavStep BrowserState :=
  { prerequisite := some ("appliance.server", "LoggedIn"),
    view := some "CloudProvidersView",
    arrivalCheck := some (viewDisplayed "CloudProvidersView"),
    action := wEnv "All", reset := some allResetter }

/-- The registry entry for the Details step of provider p under `wEnv`. -/
def wDetailsStep : NavStep BrowserState :=
  { prerequisite := some ("CloudProvider", "All"),
    view := some "CloudProviderDetailsView",
    arrivalCheck := some (detailsViewDisplayed "p"),
    action := wEnv "Details" }

/-- An action environment whose actions land on the expected screens for the
All, Details and EditFromDetails steps. -/
def wEnv2 : ActionEnv := fun step s =>
  match step with
  | "All" => some { s with displayed := "CloudProvidersView" }
  | "Details" => some { s with displayed := "CloudProviderDetailsView" }
  | "EditFromDetails" => some { s with displayed := "CloudProviderEditView" }
  | _ => none

/-- State after the All action under `wEnv2`. -/
def wS1 : BrowserState := { wState with displayed := "CloudProvidersView" }

/-- State after the Details action under `wEnv2`. -/
def wS2 : BrowserState := { wS1 with displayed := "CloudProviderDetailsView" }

/-- State after the EditFromDetails action under `wEnv2`. -/
def wS3 : BrowserState := { wS2 with displayed := "CloudProviderEditView" }

/-- The registry entry for the All step under `wEnv2`. -/
def wAllStep2 : NavStep BrowserState :=
  { prerequisite := some ("appliance.server", "LoggedIn"),
    view := some "CloudProvidersView",
    arrivalCheck := some (viewDisplayed "CloudProvidersView"),
    action := wEnv2 "All", reset := some allResetter }

/-- The registry entry for the Details step of provider p under `wEnv2`. -/
def wDetailsStep2 : NavStep BrowserState :=
  { prerequisite := some ("CloudProvider", "All"),
    view := some "CloudProviderDetailsView",
    arrivalCheck := some (detailsViewDisplayed "p"),
    action := wEnv2 "Details" }

/-- The registry entry for the EditFromDetails step under `wEnv2`. -/
def wEFDStep : NavStep BrowserState :=
  { prerequisite := some ("CloudProvider", "Details"),
    view := some "CloudProviderEditView",
    arrivalCheck := some (viewDisplayed "CloudProviderEditView"),
    action := wEnv2 "EditFromDetails" }

/-- An action environment whose Details action lands on the details location
of provider prov1. -/
def wEnv6 : ActionEnv := fun step s =>
  if step == "Details" then
    some { s with controller := "ems_cloud", summary := "prov1",
                  displayed := "CloudProviderDetailsView" }
  else some s

/-- State after the Details action under `wEnv6` from the All listing. -/
def wS61 : BrowserState :=
  { wAllState with controller := "ems_cloud", summary := "prov1",
                   displayed := "CloudProviderDetailsView" }

/-! ### Helper lemmas -/

theorem mem_foldl_insert (l : List String) (acc : Finset String) (t : String) :
    t ∈ l.foldl (fun a x => insert x a) acc ↔ t ∈ acc ∨ t ∈ l := by
  induction l generalizing acc with
  | nil => simp
  | cons x xs ih =>
    simp [List.foldl_cons, ih, Finset.mem_insert]
    tauto

theorem mem_get_all_providers (pages : List (List String)) (acc : Finset String)
    (t : String) :
    t ∈ pages.foldl (fun acc page => page.foldl (fun a x => insert x a) acc) acc ↔
      t ∈ acc ∨ ∃ p ∈ pages, t ∈ p := by
  induction pages generalizing acc with
  | nil => simp
  | cons p ps ih =>
    simp [List.foldl_cons, ih, mem_foldl_insert]
    tauto

theorem execSteps_ok_trace {σ : Type} (path : List (StepId × NavStep σ)) :
    ∀ (s s1 : σ) (tr : List StepId), execSteps path s = .ok (s1, tr) →
      tr = path.map Prod.fst := by
  induction path with
  | nil => intro s s1 tr h; simp [execSteps] at h; simp [h.2.symm]
  | cons e rest ih =>
    obtain ⟨id, st⟩ := e
    intro s s1 tr h
    cases ha : st.action s with
    | none => simp [execSteps, ha] at h
    | some s2 =>
      cases hr : execSteps rest s2 with
      | error f => simp [execSteps, ha, hr] at h
      | ok p =>
        simp [execSteps, ha, hr] at h
        have := ih s2 p.1 p.2 (by rw [hr])
        simp [h.2.symm, this]

theorem waitForAux_timeout (counts : Nat → Nat) (fuel : Nat) :
    ∀ i, (∀ j, i ≤ j → j < i + fuel → counts j = 0) →
      waitForAux counts i fuel = .timedOut (i + fuel) := by
  induction fuel with
  | zero => intro i _; simp [waitForAux]
  | succ n ih =>
    intro i h
    have h0 : counts i = 0 := h i (Nat.le_refl i) (by omega)
    have := ih (i + 1) (fun j hj1 hj2 => h j (by omega) (by omega))
    simp [waitForAux, h0, this]
    omega

theorem waitForAux_success (counts : Nat → Nat) (fuel : Nat) :
    ∀ i, (∃ j, j < fuel ∧ counts (i + j) ≠ 0) →
      ∃ v r, waitForAux counts i fuel = .success v r := by
  induction fuel with
  | zero => intro i ⟨j, hj, _⟩; omega
  | succ n ih =>
    intro i ⟨j, hj, hnz⟩
    by_cases h0 : counts i = 0
    · have hj0 : j ≠ 0 := by
        intro he; rw [he] at hnz; simp at hnz; exact hnz h0
      have ⟨v, r, hr⟩ := ih (i + 1) ⟨j - 1, by omega, by
        have : i + 1 + (j - 1) = i + j := by omega
        rw [this]; exact hnz⟩
      exact ⟨v, r, by simp [waitForAux, h0]; exact hr⟩
    · exact ⟨counts i, i, by simp [waitForAux, h0]⟩

/-! ### Claim theorems -/

/-- Claim C3: discover(credential, cancel, d_type) first navigates to the
Discover screen, fills discover_type, username, password and password_verify
from d_type and the credential fields, then clicks exactly one button —
cancel when cancel is true and start otherwise — and performs no waiting
operation. -/
theorem discover_fills_then_clicks_once (c : Credential) (cancel : Bool)
    (d : String) :
    discover c cancel d =
      [UIOp.navigate "CloudProvider" "Discover",
       UIOp.fillField "discover_type" d,
       UIOp.fillField "username" c.principal,
       UIOp.fillField "password" c.secret,
       UIOp.fillField "password_verify" c.verify_secret,
       if cancel then UIOp.click "cancel" else UIOp.click "start"] ∧
    ((discover c cancel d).filter isClick).length = 1 ∧
    (UIOp.click "cancel" ∈ discover c cancel d ↔ cancel = true) ∧
    (UIOp.click "start" ∈ discover c cancel d ↔ cancel = false) ∧
    (∀ op ∈ discover c cancel d, isWait op = false) := by
  cases cancel <;> simp [discover, isClick, isWait]

/-- Claim C5: get_all_providers returns a duplicate-free set of the titles
collected from every page of the paginated listing; it navigates to the All
screen exactly when the skip flag is false. -/
theorem get_all_providers_spec (do_not_navigate : Bool)
    (pages : List (List String)) :
    ((get_all_providers do_not_navigate pages).1 =
      if do_not_navigate then [] else [UIOp.navigate "CloudProvider" "All"]) ∧
    (∀ t, t ∈ (get_all_providers do_not_navigate pages).2 ↔ ∃ p ∈ pages, t ∈ p) ∧
    ((get_all_providers do_not_navigate pages).2.val.Nodup) := by
  refine ⟨rfl, fun t => ?_, (get_all_providers do_not_navigate pages).2.nodup⟩
  simp [get_all_providers, mem_get_all_providers]

/-- Claim C4: wait_for_a_provider polls the paginator item count, refreshing
on each poll; if the count stays zero for all 1000 polls of the configured
bound it raises the timeout failure (after 1000 refreshes) rather than
blocking forever, and if the count is nonzero at some poll within the bound
it returns successfully. -/
theorem wait_for_a_provider_spec (counts : Nat → Nat) :
    ((∀ i, i < 1000 → counts i = 0) →
      wait_for_a_provider counts =
        ([UIOp.navigate "CloudProvider" "All"], .timedOut 1000)) ∧
    ((∃ i, i < 1000 ∧ counts i ≠ 0) →
      ∃ v r, (wait_for_a_provider counts).2 = .success v r) := by
  constructor
  · intro h
    have := waitForAux_timeout counts 1000 0 (fun j _ hj => h j (by omega))
    simp [wait_for_a_provider, this]
  · intro ⟨i, hi, hnz⟩
    exact waitForAux_success counts 1000 0 ⟨i, hi, by simpa using hnz⟩

/-- Witness for claim C4: an always-zero listing times out after the bound;
an immediately nonzero listing returns successfully. -/
theorem wait_for_a_provider_spec_witness :
    (wait_for_a_provider (fun _ => 0) =
      ([UIOp.navigate "CloudProvider" "All"], .timedOut 1000)) ∧
    (∃ v r, (wait_for_a_provider (fun _ => 1)).2 = .success v r) :=
  ⟨(wait_for_a_provider_spec (fun _ => 0)).1 (fun _ _ => rfl),
   (wait_for_a_provider_spec (fun _ => 1)).2 ⟨0, by omega, by decide⟩⟩

/-- Claim C1: for every registered navigation step of CloudProvider whose
arrival check already evaluates true for the current context, navigate_to
performs zero navigation actions (empty trace) and returns the current view
handle; at most the step's reset procedure runs on the state. -/
theorem fast_path_zero_actions (name : String) (env : ActionEnv)
    (step : String) (st : NavStep BrowserState) (c : BrowserState → Bool)
    (s : BrowserState)
    (hlook : lookupStep (cloudProviderRegistry name env) ("CloudProvider", step) =
      some st)
    (hc : st.arrivalCheck = some c) (hcs : c s = true) :
    navigate_to (cloudProviderRegistry name env) "CloudProvider" step s =
      .ok st.view (applyReset st s) [] := by
  simp [navigate_to, hlook, fastPath, hc, hcs]

/-- Witness for claim C1: already on the All listing, navigate_to runs zero
actions and only the resetter touches the state. -/
theorem fast_path_zero_actions_witness :
    navigate_to (cloudProviderRegistry "p" wEnv) "CloudProvider" "All" wAllState =
      .ok (some "CloudProvidersView") (allResetter wAllState) [] :=
  fast_path_zero_actions "p" wEnv "All" wAllStep
    (viewDisplayed "CloudProvidersView") wAllState rfl rfl rfl

/-- Claim C2: for every registered step, when the resolved chain of
unsatisfied steps (root-most prerequisite first, built by walking
prerequisites whose arrival checks do not currently hold) has length N and
every action succeeds, navigate_to executes exactly the N actions of that
chain, in root-to-target order: the executed trace is exactly the resolved
path's step ids and has the path's length. -/
theorem prerequisite_chain_executes_in_order {σ : Type} (reg : Registry σ)
    (obj step : String) (st : NavStep σ) (s s1 : σ)
    (path : List (StepId × NavStep σ)) (tr : List StepId)
    (hlook : lookupStep reg (obj, step) = some st)
    (hfast : fastPath st s = false)
    (hpath : resolvePath reg s (reg.length + 1) (obj, step) = some path)
    (hexec : execSteps path s = .ok (s1, tr)) :
    tr = path.map Prod.fst ∧
    traceOf (navigate_to reg obj step s) = path.map Prod.fst ∧
    (traceOf (navigate_to reg obj step s)).length = path.length := by
  have htr : tr = path.map Prod.fst := execSteps_ok_trace path s s1 tr hexec
  have hnav : traceOf (navigate_to reg obj step s) = path.map Prod.fst := by
    simp [navigate_to, hlook, hfast, hpath, hexec]
    cases hc : st.arrivalCheck with
    | none => simp [traceOf, htr]
    | some c => by_cases h : c s1 <;> simp [h, traceOf, htr]
  exact ⟨htr, hnav, by simp [hnav]⟩

/-- Witness for claim C2: a concrete EditFromDetails navigation from a
logged-in state resolves the chain All, Details, EditFromDetails (LoggedIn is
already satisfied) and executes exactly those three actions in that order. -/
theorem prerequisite_chain_executes_in_order_witness :
    traceOf (navigate_to (cloudProviderRegistry "p" wEnv2) "CloudProvider"
        "EditFromDetails" wState) =
      [("CloudProvider", "All"), ("CloudProvider", "Details"),
       ("CloudProvider", "EditFromDetails")] ∧
    (traceOf (navigate_to (cloudProviderRegistry "p" wEnv2) "CloudProvider"
        "EditFromDetails" wState)).length = 3 :=
  (prerequisite_chain_executes_in_order (cloudProviderRegistry "p" wEnv2)
    "CloudProvider" "EditFromDetails" wEFDStep wState wS3
    [(("CloudProvider", "All"), wAllStep2),
     (("CloudProvider", "Details"), wDetailsStep2),
     (("CloudProvider", "EditFromDetails"), wEFDStep)]
    [("CloudProvider", "All"), ("CloudProvider", "Details"),
     ("CloudProvider", "EditFromDetails")]
    rfl rfl rfl rfl).2

/-- Claim C6: requesting Details for provider prov1 while on the All listing
executes exactly one navigation action (the Details item click), and the
navigation succeeds precisely when the resulting view's displayed check
matches the location with controller ems_cloud and summary prov1. -/
theorem details_single_action_iff_displayed (env : ActionEnv)
    (s s1 : BrowserState)
    (hAll : viewDisplayed "CloudProvidersView" s = true)
    (hDet : detailsViewDisplayed "prov1" s = false)
    (hact : env "Details" s = some s1) :
    traceOf (navigate_to (cloudProviderRegistry "prov1" env) "CloudProvider"
        "Details" s) = [("CloudProvider", "Details")] ∧
    (navigate_to (cloudProviderRegistry "prov1" env) "CloudProvider"
        "Details" s =
        NavResult.ok (some "CloudProviderDetailsView") s1
          [("CloudProvider", "Details")] ↔
      (s1.controller = "ems_cloud" ∧ s1.summary = "prov1")) := by
  have hred : navigate_to (cloudProviderRegistry "prov1" env) "CloudProvider"
      "Details" s =
      if detailsViewDisplayed "prov1" s1 then
        NavResult.ok (some "CloudProviderDetailsView") s1
          [("CloudProvider", "Details")]
      else
        NavResult.verifyError ("CloudProvider", "Details")
          (some "CloudProviderDetailsView") s1 [("CloudProvider", "Details")] := by
    simp [navigate_to, cloudProviderRegistry, lookupStep, fastPath, resolvePath,
          execSteps, hAll, hDet, hact]
  by_cases h : detailsViewDisplayed "prov1" s1
  · rw [hred, if_pos h]
    have hloc : s1.controller = "ems_cloud" ∧ s1.summary = "prov1" := by
      simpa [detailsViewDisplayed] using h
    simp [traceOf, hloc]
  · rw [hred, if_neg h]
    have hloc : ¬(s1.controller = "ems_cloud" ∧ s1.summary = "prov1") := by
      simpa [detailsViewDisplayed] using h
    simp [traceOf, hloc]

/-- Witness for claim C6: a concrete Details navigation from the All listing
whose click lands on the prov1 details location executes one action and
succeeds. -/
theorem details_single_action_iff_displayed_witness :
    traceOf (navigate_to (cloudProviderRegistry "prov1" wEnv6) "CloudProvider"
        "Details" wAllState) = [("CloudProvider", "Details")] ∧
    (navigate_to (cloudProviderRegistry "prov1" wEnv6) "CloudProvider"
        "Details" wAllState =
        NavResult.ok (some "CloudProviderDetailsView") wS61
          [("CloudProvider", "Details")] ↔
      (wS61.controller = "ems_cloud" ∧ wS61.summary = "prov1")) :=
  details_single_action_iff_displayed wEnv6 wAllState wS61 rfl rfl rfl

/-- Claim C7: navigate_to on an unregistered (objectType, stepName) pair
fails with UnknownStepError and executes no step action; the step names
registered for CloudProvider are exactly All, Add, Discover, Details, Edit,
EditFromDetails, ManagePolicies, ManagePoliciesFromDetails, EditTags,
EditTagsFromDetails, Timelines, Instances and Images. -/
theorem unknown_step_error (name : String) (env : ActionEnv)
    (obj step : String) (s : BrowserState)
    (h : lookupStep (cloudProviderRegistry name env) (obj, step) = none) :
    navigate_to (cloudProviderRegistry name env) obj step s = .unknownStep ∧
    traceOf (navigate_to (cloudProviderRegistry name env) obj step s) = [] ∧
    registeredSteps (cloudProviderRegistry name env) "CloudProvider" =
      ["All", "Add", "Discover", "Details", "Edit", "EditFromDetails",
       "ManagePolicies", "ManagePoliciesFromDetails", "EditTags",
       "EditTagsFromDetails", "Timelines", "Instances", "Images"] := by
  refine ⟨?_, ?_, rfl⟩ <;> simp [navigate_to, h, traceOf]

/-- Witness for claim C7: a step name that is not registered fails with
UnknownStepError. -/
theorem unknown_step_error_witness :
    navigate_to (cloudProviderRegistry "p" wEnv) "CloudProvider" "Bogus"
        wState = .unknownStep ∧
    traceOf (navigate_to (cloudProviderRegistry "p" wEnv) "CloudProvider"
        "Bogus" wState) = [] ∧
    registeredSteps (cloudProviderRegistry "p" wEnv) "CloudProvider" =
      ["All", "Add", "Discover", "Details", "Edit", "EditFromDetails",
       "ManagePolicies", "ManagePoliciesFromDetails", "EditTags",
       "EditTagsFromDetails", "Timelines", "Instances", "Images"] :=
  unknown_step_error "p" wEnv "CloudProvider" "Bogus" wState rfl

/-- Claim C8: when the target step defines an arrival check, every action of
the resolved path succeeds, and the final arrival check still evaluates
false, navigate_to fails with NavigationVerificationError identifying the
target step, its expected view and the observed state — not a generic
failure and not silent success. -/
theorem verification_error_names_target {σ : Type} (reg : Registry σ)
    (obj step : String) (st : NavStep σ) (c : σ → Bool) (s s1 : σ)
    (path : List (StepId × NavStep σ)) (tr : List StepId)
    (hlook : lookupStep reg (obj, step) = some st)
    (hc : st.arrivalCheck = some c)
    (h0 : c s = false)
    (hpath : resolvePath reg s (reg.length + 1) (obj, step) = some path)
    (hexec : execSteps path s = .ok (s1, tr))
    (h1 : c s1 = false) :
    navigate_to reg obj step s = .verifyError (obj, step) st.view s1 tr := by
  simp [navigate_to, hlook, fastPath, hc, h0, hpath, hexec, h1]

/-- Witness for claim C8: a Details click that does not change the location
leaves the arrival check false and yields a verification error naming the
Details step. -/
theorem verification_error_names_target_witness :
    navigate_to (cloudProviderRegistry "p" wEnv) "CloudProvider" "Details"
        wAllState =
      .verifyError ("CloudProvider", "Details")
        (some "CloudProviderDetailsView") wAllState
        [("CloudProvider", "Details")] :=
  verification_error_names_target (cloudProviderRegistry "p" wEnv)
    "CloudProvider" "Details" wDetailsStep (detailsViewDisplayed "p")
    wAllState wAllState [(("CloudProvider", "Details"), wDetailsStep)]
    [("CloudProvider", "Details")] rfl rfl rfl rfl rfl rfl

/-- Claim C9: when the All step is reused from the fast path only its
resetter runs, and the resetter leaves the listing canonical: Grid View is
selected (a select operation is issued only when it was not already
selected), and when the paginator exists check_all and uncheck_all run and
every item checkbox ends unchecked. -/
theorem all_resetter_canonical_state (name : String) (env : ActionEnv)
    (s : BrowserState)
    (h : viewDisplayed "CloudProvidersView" s = true) :
    navigate_to (cloudProviderRegistry name env) "CloudProvider" "All" s =
      NavResult.ok (some "CloudProvidersView") (allResetter s) [] ∧
    gridViewSelected (allResetterOps s.listing).1.viewSelectorSelected = true ∧
    (s.listing.paginatorExists = true →
      ∀ b ∈ (allResetterOps s.listing).1.checkboxes, b = false) ∧
    ("select Grid View" ∈ (allResetterOps s.listing).2 ↔
      gridViewSelected s.listing.viewSelectorSelected = false) ∧
    (("check_all" ∈ (allResetterOps s.listing).2 ∧
      "uncheck_all" ∈ (allResetterOps s.listing).2) ↔
      s.listing.paginatorExists = true) := by
  refine ⟨by simp [navigate_to, cloudProviderRegistry, lookupStep, fastPath,
                   h, applyReset], ?_⟩
  by_cases hg : gridViewSelected s.listing.viewSelectorSelected <;>
    by_cases hp : s.listing.paginatorExists <;>
    simp [allResetterOps, check_all, uncheck_all, hg, hp] <;>
    decide

/-- Witness for claim C9: resetting a listing in list view with a paginator
and a checked checkbox selects Grid View and unchecks everything. -/
theorem all_resetter_canonical_state_witness :
    navigate_to (cloudProviderRegistry "p" wEnv) "CloudProvider" "All"
        wAllState =
      NavResult.ok (some "CloudProvidersView") (allResetter wAllState) [] ∧
    gridViewSelected (allResetterOps wAllState.listing).1.viewSelectorSelected =
      true ∧
    (wAllState.listing.paginatorExists = true →
      ∀ b ∈ (allResetterOps wAllState.listing).1.checkboxes, b = false) ∧
    ("select Grid View" ∈ (allResetterOps wAllState.listing).2 ↔
      gridViewSelected wAllState.listing.viewSelectorSelected = false) ∧
    (("check_all" ∈ (allResetterOps wAllState.listing).2 ∧
      "uncheck_all" ∈ (allResetterOps wAllState.listing).2) ↔
      wAllState.listing.paginatorExists = true) :=
  all_resetter_canonical_state "p" wEnv wAllState rfl

/-- Claim C10: the Instances and Images steps declare no view; their arrival
predicates are the ones registered (match_page with summary
(name) (All Instances) and (name) (All Images)), which hold exactly when the
current location has controller ems_cloud, title Cloud Providers and the
respective summary — arrival for these two steps is decided by location
matching, not a view displayed check. -/
theorem instances_images_location_arrival (name : String) (env : ActionEnv)
    (s : BrowserState) :
    ((lookupStep (cloudProviderRegistry name env)
        ("CloudProvider", "Instances")).map (fun st => st.view) = some none) ∧
    ((lookupStep (cloudProviderRegistry name env)
        ("CloudProvider", "Images")).map (fun st => st.view) = some none) ∧
    ((lookupStep (cloudProviderRegistry name env)
        ("CloudProvider", "Instances")).bind
        (fun st => st.arrivalCheck.map (fun c => c s)) =
      some (instancesAmIHere name s)) ∧
    ((lookupStep (cloudProviderRegistry name env)
        ("CloudProvider", "Images")).bind
        (fun st => st.arrivalCheck.map (fun c => c s)) =
      some (imagesAmIHere name s)) ∧
    (instancesAmIHere name s = true ↔
      (s.controller = "ems_cloud" ∧ s.title = "Cloud Providers" ∧
       s.summary = name ++ " (All Instances)")) ∧
    (imagesAmIHere name s = true ↔
      (s.controller = "ems_cloud" ∧ s.title = "Cloud Providers" ∧
       s.summary = name ++ " (All Images)")) := by
  refine ⟨rfl, rfl, rfl, rfl, ?_, ?_⟩ <;>
    simp [instancesAmIHere, imagesAmIHere, match_page, match_location,
          Bool.and_eq_true, beq_iff_eq, and_assoc]

end CloudProviderModule
